import Mathlib

/-!
Shallow embedding of the Job Registry and Event Broker core of the sliver
server, as exercised by the console code in
src/server/console/console-players.go, together with the macro host-process
selection code in the same source bundle. Pure data is translated to Lean
structures; the side effects of the launch protocol (registry mutation,
event publication, goroutine start) are made explicit as an action trace
plus a state transformer. Components of the core that live outside src
(the identifier allocator, the registry operations, StopJob) are modelled
from the spec and marked as such in their doc comments.
-/

namespace Sliver

/-- Event kinds of the taxonomy: the core emits job lifecycle events. -/
inductive EventType where
  | started
  | stopped
deriving DecidableEq

/-- Transcribed from core.Job as used by jobStartClientListener: identifier,
kind tag, description, protocol, bound port (uint16, modelled as Nat below
two to the sixteenth), and the identity of the stop channel JobCtrl. -/
structure Job where
  ID : Int
  Name : String
  Description : String
  Protocol : String
  Port : Nat
  JobCtrl : Nat
deriving DecidableEq

/-- Transcribed from core.Event as constructed at the publish site: an
optional Job payload and an event kind. -/
structure Event where
  job : Option Job
  eventType : EventType
deriving DecidableEq

/-- Modelled from the spec: consts.StoppedEvent (outside src) is the
JobStopped event kind. -/
def StoppedEvent : EventType := EventType.stopped

/-- Modelled from the spec: the JobStarted event kind of the taxonomy. -/
def StartedEvent : EventType := EventType.started

/-- The event value built at the publish call of the supervising goroutine:
core.Event with Job set to the job and EventType set to StoppedEvent. -/
def stoppedEventOf (j : Job) : Event :=
  { job := some j, eventType := StoppedEvent }

/-- Modelled from the spec: the Job Registry add operation (core.Jobs.AddJob
is outside src) inserts a fully constructed Job into the registry. -/
def AddJob (jobs : List Job) (j : Job) : List Job := j :: jobs

/-- Modelled from the spec: the Job Registry remove operation
(core.Jobs.RemoveJob is outside src) deletes the entry with the given
identifier if present and is a no-op otherwise. -/
def RemoveJob (jobs : List Job) (j : Job) : List Job :=
  jobs.filter (fun x => x.ID != j.ID)

/-- Modelled from the spec: core.GetJobID (outside src) returns a strictly
increasing integer on every call starting from 1; modelled as a counter,
returning the new identifier together with the new counter value. -/
def GetJobID (n : Nat) : Int × Nat := (((n : Int) + 1), n + 1)

/-- Observable state of the core: registry contents, allocator counter,
a counter for allocating fresh stop channels, and the log of events
published so far. -/
structure ServerState where
  jobs : List Job
  nextJobId : Nat
  nextChanId : Nat
  events : List Event
deriving DecidableEq

/-- State of the core at server start: empty registry, allocator at its
base, no events published. -/
def initialState : ServerState :=
  { jobs := [], nextJobId := 0, nextChanId := 0, events := [] }

/-- Side effects of the launch protocol, in program order: the bind attempt,
transport close, registry removal, event publication, registry insertion,
and the start of the supervising goroutine. -/
inductive Action where
  | bindListener (iface : String) (port : Nat)
  | closeListener (j : Job)
  | removeJob (j : Job)
  | publish (e : Event)
  | addJob (j : Job)
  | startSupervisor (j : Job)
deriving DecidableEq

/-- Action a is a transport close. -/
def isCloseAction : Action → Bool
  | Action.closeListener _ => true
  | _ => false

/-- Action a is a registry removal. -/
def isRemoveAction : Action → Bool
  | Action.removeJob _ => true
  | _ => false

/-- Action a publishes some event. -/
def isPublishAction : Action → Bool
  | Action.publish _ => true
  | _ => false

/-- Action a publishes an event of the JobStarted kind. -/
def isStartedPublish : Action → Bool
  | Action.publish e => e.eventType == StartedEvent
  | _ => false

/-- Action a inserts a job into the registry. -/
def isAddAction : Action → Bool
  | Action.addJob _ => true
  | _ => false

/-- Occurrence order in a trace: a occurs strictly before b. -/
def precedes (a b : Action) (tr : List Action) : Prop :=
  ∃ i j : Fin tr.length, (i : Nat) < (j : Nat) ∧ tr.get i = a ∧ tr.get j = b

instance (a b : Action) (tr : List Action) : Decidable (precedes a b tr) := by
  unfold precedes; infer_instance

/-- Transcribed from the goroutine body of jobStartClientListener
(src/server/console/console-players.go lines 146 to 157): once the stop
signal on JobCtrl fires, close the listener, remove the job from
core.Jobs, and publish a core.Event with the job and StoppedEvent. -/
def supervisorBody (j : Job) : List Action :=
  [Action.closeListener j, Action.removeJob j, Action.publish (stoppedEventOf j)]

/-- Effect of one action on the observable state; bind, close and goroutine
start do not touch registry or event log. -/
def applyAction (s : ServerState) (a : Action) : ServerState :=
  match a with
  | Action.removeJob j => { s with jobs := RemoveJob s.jobs j }
  | Action.publish e => { s with events := s.events ++ [e] }
  | Action.addJob j => { s with jobs := AddJob s.jobs j }
  | _ => s

/-- State reached when the supervising task of job j runs its body after
the stop signal fires. -/
def runSupervisor (s : ServerState) (j : Job) : ServerState :=
  (supervisorBody j).foldl applyAction s

/-- Result of a call to jobStartClientListener: the two Go return values,
the state after the call returns, the ordered actions the calling
goroutine performed, and the actions the supervising goroutine will
perform once the stop signal fires. -/
structure StartResult where
  retId : Int
  retErr : Option String
  state : ServerState
  mainTrace : List Action
  supervisorTrace : List Action
deriving DecidableEq

/-- Transcribed from jobStartClientListener
(src/server/console/console-players.go lines 131 to 162). The bind attempt
is passed in as the outcome of the opaque transport collaborator. On bind
error the pair (-1, err) is returned with nothing else done. On success a
Job is built with a fresh identifier from GetJobID, Name rpc, Description
client listener, Protocol tcp, the requested port and a fresh JobCtrl
channel; the supervising goroutine is started, then the job is added to
the registry and its identifier returned. -/
def jobStartClientListener (s : ServerState) (bindResult : Except String Unit)
    (bindIface : String) (port : Nat) : StartResult :=
  match bindResult with
  | Except.error e =>
      { retId := -1, retErr := some e, state := s,
        mainTrace := [Action.bindListener bindIface port],
        supervisorTrace := [] }
  | Except.ok _ =>
      let idAlloc := GetJobID s.nextJobId
      let job : Job :=
        { ID := idAlloc.1, Name := "rpc", Description := "client listener",
          Protocol := "tcp", Port := port, JobCtrl := s.nextChanId }
      { retId := job.ID, retErr := none,
        state := { s with jobs := AddJob s.jobs job, nextJobId := idAlloc.2,
                          nextChanId := s.nextChanId + 1 },
        mainTrace := [Action.bindListener bindIface port,
                      Action.startSupervisor job, Action.addJob job],
        supervisorTrace := supervisorBody job }

/-- Go conversion of a signed int to uint16: the low 16 bits, which is the
value taken modulo two to the sixteenth. -/
def uint16OfInt (v : Int) : Nat := (v % 65536).toNat

/-- Transcribed from startMultiplayerModeCmd
(src/server/console/console-players.go lines 119 to 129): the lport flag is
an int converted to uint16 before being handed to jobStartClientListener. -/
def startMultiplayerModeCmd (s : ServerState) (bindResult : Except String Unit)
    (server : String) (lportFlag : Int) : StartResult :=
  jobStartClientListener s bindResult server (uint16OfInt lportFlag)

/-- Result of a StopJob call: whether the identifier was unknown, the state
after the call, and the list of stop channels signalled. -/
structure StopResult where
  notFound : Bool
  state : ServerState
  signals : List Nat
deriving DecidableEq

/-- Modelled from the spec: StopJob (outside src) fails with not-found if
the identifier is absent from the registry, and otherwise sends on the stop
channel of that job exactly once. -/
def StopJob (s : ServerState) (id : Int) : StopResult :=
  match s.jobs.find? (fun x => x.ID == id) with
  | none => { notFound := true, state := s, signals := [] }
  | some j => { notFound := false, state := s, signals := [j.JobCtrl] }

/-- The k-th allocator counter value, starting from the base. -/
def allocCounter : Nat → Nat
  | 0 => 0
  | k + 1 => (GetJobID (allocCounter k)).2

/-- The identifier returned by the k-th call to GetJobID. -/
def jobIdAt (k : Nat) : Int := (GetJobID (allocCounter k)).1

/-- States reachable from server start through the launch protocol and
through supervised shutdowns. -/
inductive Reachable : ServerState → Prop where
  | init : Reachable initialState
  | start (s : ServerState) (bindResult : Except String Unit)
      (iface : String) (port : Nat) :
      Reachable s → Reachable (jobStartClientListener s bindResult iface port).state
  | stop (s : ServerState) (j : Job) :
      Reachable s → Reachable (runSupervisor s j)

/-- Transcribed from the macros source: the Windows default host process. -/
def windowsDefaultHostProc : String := "c:\\windows\\system32\\notepad.exe"

/-- Transcribed from the macros source: the declared Linux default host
process. -/
def linuxDefaultHostProc : String := "/bin/bash"

/-- Transcribed from the macros source: the macOS default host process. -/
def macosDefaultHostProc : String :=
  "/Applications/Safari.app/Contents/MacOS/SafariForWebKitDevelopment"

/-- Transcribed from the defaultHostProc map literal: note that the linux
key is bound to windowsDefaultHostProc in the source. -/
def defaultHostProc : List (String × String) :=
  [(("windows"), windowsDefaultHostProc),
   (("linux"), windowsDefaultHostProc),
   (("darwin"), macosDefaultHostProc)]

/-- Transcribed from getDefaultProcess: look the target OS up in
defaultHostProc, and on a miss report the formatted error. -/
def getDefaultProcess (targetOS : String) : Except String String :=
  match defaultHostProc.lookup targetOS with
  | some p => Except.ok p
  | none =>
      Except.error (("no default process for ") ++ targetOS ++ (" target, please specify one"))

/-- Concrete job produced by the first successful start from the initial
state on port 9000, used to instantiate claims on concrete inputs. -/
def demoJob : Job :=
  { ID := 1, Name := "rpc", Description := "client listener",
    Protocol := "tcp", Port := 9000, JobCtrl := 0 }

/-- Concrete registry state holding exactly demoJob, used to instantiate
claims on concrete inputs. -/
def demoState : ServerState :=
  { jobs := [demoJob], nextJobId := 1, nextChanId := 1, events := [] }

/-- Action a starts a supervising goroutine. -/
def isSupervisorStart : Action → Bool
  | Action.startSupervisor _ => true
  | _ => false

/-- Running the supervising task leaves the allocator alone, removes the
job from the registry and appends one stopped event to the log. -/
theorem runSupervisor_eq (s : ServerState) (j : Job) :
    runSupervisor s j =
      { s with jobs := RemoveJob s.jobs j,
               events := s.events ++ [stoppedEventOf j] } := rfl

/-- The allocator counter after k calls is k. -/
theorem allocCounter_eq (k : Nat) : allocCounter k = k := by
  induction k with
  | zero => rfl
  | succ n ih => simp [allocCounter, GetJobID, ih]

/-- The identifier returned by the k-th allocator call is k plus one. -/
theorem jobIdAt_eq (k : Nat) : jobIdAt k = (k : Int) + 1 := by
  simp [jobIdAt, GetJobID, allocCounter_eq]

/-- Claim C1: for every registered Job, when its stop signal fires the
supervising task closes the transport, removes the Job from the registry,
and publishes a stopped event carrying that same Job, each step exactly
once and in this order. -/
theorem jobStop_sequence (j : Job) (s : ServerState) :
    (supervisorBody j).countP isCloseAction = 1 ∧
    (supervisorBody j).countP isRemoveAction = 1 ∧
    (supervisorBody j).countP isPublishAction = 1 ∧
    precedes (Action.closeListener j) (Action.removeJob j) (supervisorBody j) ∧
    precedes (Action.removeJob j) (Action.publish (stoppedEventOf j)) (supervisorBody j) ∧
    (runSupervisor s j).jobs = RemoveJob s.jobs j ∧
    (runSupervisor s j).events = s.events ++ [stoppedEventOf j] := by
  refine ⟨?_, ?_, ?_, ?_, ?_, ?_, ?_⟩
  · simp [supervisorBody, isCloseAction, isRemoveAction, isPublishAction]
  · simp [supervisorBody, isCloseAction, isRemoveAction, isPublishAction]
  · simp [supervisorBody, isCloseAction, isRemoveAction, isPublishAction]
  · exact ⟨⟨0, by simp [supervisorBody]⟩, ⟨1, by simp [supervisorBody]⟩, by simp, rfl, rfl⟩
  · exact ⟨⟨1, by simp [supervisorBody]⟩, ⟨2, by simp [supervisorBody]⟩, by simp, rfl, rfl⟩
  · rw [runSupervisor_eq]
  · rw [runSupervisor_eq]

/-- Claim C2: when the transport bind fails, the bind error is returned to
the caller together with the sentinel, no Job is constructed, no
supervising goroutine is started, the registry and event log are left
untouched, and no event is published. -/
theorem bindFailure_no_mutation (s : ServerState) (e : String)
    (bindIface : String) (port : Nat) :
    (jobStartClientListener s (Except.error e) bindIface port).retErr = some e ∧
    (jobStartClientListener s (Except.error e) bindIface port).state = s ∧
    (jobStartClientListener s (Except.error e) bindIface port).mainTrace.countP isAddAction = 0 ∧
    (jobStartClientListener s (Except.error e) bindIface port).mainTrace.countP isSupervisorStart = 0 ∧
    (jobStartClientListener s (Except.error e) bindIface port).mainTrace.countP isPublishAction = 0 ∧
    (jobStartClientListener s (Except.error e) bindIface port).supervisorTrace = [] := by
  refine ⟨rfl, rfl, ?_, ?_, ?_, rfl⟩ <;>
    simp [jobStartClientListener, isAddAction, isSupervisorStart, isPublishAction]

/-- Claim C3 fails on the code at a concrete input: in the successful run
from the initial state on port 9000, registering the Job does not precede
starting the supervising task in the trace of the calling goroutine. -/
theorem launch_order_counterexample :
    ¬ precedes (Action.addJob demoJob) (Action.startSupervisor demoJob)
        (jobStartClientListener initialState (Except.ok ()) ("") 9000).mainTrace := by
  decide

/-- Claim C3 amended: in every successful run the supervising task is
started strictly before the Job is registered; registration is the last
action of the calling goroutine, the identifier of the registered Job is
returned immediately after registration, and the shutdown steps run
asynchronously as the supervisor trace. -/
theorem launch_order (s : ServerState) (bindIface : String) (port : Nat) :
    ∃ job : Job,
      precedes (Action.startSupervisor job) (Action.addJob job)
        (jobStartClientListener s (Except.ok ()) bindIface port).mainTrace ∧
      (jobStartClientListener s (Except.ok ()) bindIface port).mainTrace.getLast? =
        some (Action.addJob job) ∧
      (jobStartClientListener s (Except.ok ()) bindIface port).retId = job.ID ∧
      job ∈ (jobStartClientListener s (Except.ok ()) bindIface port).state.jobs ∧
      (jobStartClientListener s (Except.ok ()) bindIface port).supervisorTrace =
        supervisorBody job := by
  refine ⟨{ ID := (s.nextJobId : Int) + 1, Name := "rpc",
            Description := "client listener", Protocol := "tcp",
            Port := port, JobCtrl := s.nextChanId }, ?_, ?_, ?_, ?_, ?_⟩
  · exact ⟨⟨1, by simp [jobStartClientListener]⟩, ⟨2, by simp [jobStartClientListener]⟩,
      by simp, rfl, rfl⟩
  · rfl
  · rfl
  · simp [jobStartClientListener, AddJob, GetJobID]
  · rfl

/-- Claim C4 fails on the code at a concrete input: the successful run from
the initial state on port 9000 publishes no event of the JobStarted kind,
neither in the calling goroutine, nor in the supervising goroutine, nor in
the event log even after the job is stopped. -/
theorem startedEvent_counterexample :
    ((jobStartClientListener initialState (Except.ok ()) ("") 9000).mainTrace ++
      (jobStartClientListener initialState (Except.ok ()) ("") 9000).supervisorTrace).countP
        isStartedPublish = 0 ∧
    (runSupervisor (jobStartClientListener initialState (Except.ok ()) ("") 9000).state
        demoJob).events.countP (fun e => e.eventType == StartedEvent) = 0 := by
  constructor
  · decide
  · decide

/-- Claim C4 amended: the core defines both event kinds but itself emits
only JobStopped: every supervised stop publishes exactly one stopped event
carrying the stopped Job, and no run of jobStartClientListener ever emits
an event of the JobStarted kind. -/
theorem eventEmission (s : ServerState) (j : Job) (bindResult : Except String Unit)
    (bindIface : String) (port : Nat) :
    (supervisorBody j).countP isPublishAction = 1 ∧
    Action.publish (stoppedEventOf j) ∈ supervisorBody j ∧
    (runSupervisor s j).events = s.events ++ [stoppedEventOf j] ∧
    (jobStartClientListener s bindResult bindIface port).mainTrace.countP isStartedPublish = 0 ∧
    (jobStartClientListener s bindResult bindIface port).supervisorTrace.countP
      isStartedPublish = 0 := by
  refine ⟨?_, ?_, ?_, ?_, ?_⟩
  · simp [supervisorBody, isPublishAction]
  · simp [supervisorBody]
  · rw [runSupervisor_eq]
  · cases bindResult <;>
      simp [jobStartClientListener, isStartedPublish]
  · cases bindResult <;>
      simp [jobStartClientListener, supervisorBody, isStartedPublish, stoppedEventOf,
        StoppedEvent, StartedEvent]

/-- Claim C5: every successful bind constructs and registers a Job carrying
the freshly allocated identifier, Name rpc, Description client listener,
Protocol tcp, the requested port and a fresh stop channel distinct from
every live one, and the identifier returned to the caller is exactly the
identifier of that registered Job. -/
theorem startedJob_fields (s : ServerState) (bindIface : String) (port : Nat)
    (hid : ∀ x ∈ s.jobs, x.ID ≤ (s.nextJobId : Int))
    (hch : ∀ x ∈ s.jobs, x.JobCtrl < s.nextChanId) :
    ∃ job : Job,
      (jobStartClientListener s (Except.ok ()) bindIface port).state.jobs = job :: s.jobs ∧
      job.ID = (s.nextJobId : Int) + 1 ∧
      job.Name = "rpc" ∧
      job.Description = "client listener" ∧
      job.Protocol = "tcp" ∧
      job.Port = port ∧
      (∀ x ∈ s.jobs, x.ID ≠ job.ID) ∧
      (∀ x ∈ s.jobs, x.JobCtrl ≠ job.JobCtrl) ∧
      (jobStartClientListener s (Except.ok ()) bindIface port).retId = job.ID := by
  refine ⟨{ ID := (s.nextJobId : Int) + 1, Name := "rpc",
            Description := "client listener", Protocol := "tcp",
            Port := port, JobCtrl := s.nextChanId }, rfl, rfl, rfl, rfl, rfl, rfl,
          ?_, ?_, rfl⟩
  · intro x hx
    have := hid x hx
    simp only []
    omega
  · intro x hx
    have := hch x hx
    simp only []
    omega

/-- Witness for C5 at the initial state. -/
theorem startedJob_fields_witness :
    ∃ job : Job,
      (jobStartClientListener initialState (Except.ok ()) ("") 9000).state.jobs =
        job :: initialState.jobs ∧
      job.ID = (initialState.nextJobId : Int) + 1 ∧
      job.Name = "rpc" ∧
      job.Description = "client listener" ∧
      job.Protocol = "tcp" ∧
      job.Port = 9000 ∧
      (∀ x ∈ initialState.jobs, x.ID ≠ job.ID) ∧
      (∀ x ∈ initialState.jobs, x.JobCtrl ≠ job.JobCtrl) ∧
      (jobStartClientListener initialState (Except.ok ()) ("") 9000).retId = job.ID :=
  startedJob_fields initialState ("") 9000 (by simp [initialState]) (by simp [initialState])

/-- Identifier bounds and identifier distinctness hold in every reachable
state of the core. -/
theorem reachable_ids (s : ServerState) (h : Reachable s) :
    (∀ x ∈ s.jobs, 1 ≤ x.ID ∧ x.ID ≤ (s.nextJobId : Int)) ∧
    s.jobs.Pairwise (fun a b => a.ID ≠ b.ID) := by
  induction h with
  | init => exact ⟨by simp [initialState], by simp [initialState]⟩
  | start s bindResult iface port hs ih =>
      obtain ⟨hb, hp⟩ := ih
      cases bindResult with
      | error e => exact ⟨hb, hp⟩
      | ok u =>
          constructor
          · intro x hx
            simp only [jobStartClientListener, AddJob, GetJobID, List.mem_cons] at hx
            rcases hx with hx | hx
            · subst hx
              simp only [jobStartClientListener, GetJobID]
              push_cast
              omega
            · have := hb x hx
              simp only [jobStartClientListener, GetJobID]
              push_cast
              omega
          · simp only [jobStartClientListener, AddJob, GetJobID]
            refine List.Pairwise.cons ?_ hp
            intro x hx
            have := (hb x hx).2
            simp only []
            omega
  | stop s j hs ih =>
      obtain ⟨hb, hp⟩ := ih
      rw [runSupervisor_eq]
      constructor
      · intro x hx
        exact hb x (List.mem_of_mem_filter hx)
      · exact hp.sublist (List.filter_sublist s.jobs)

/-- Claim C6: the identifier allocator starts at 1, is strictly increasing
over calls, never repeats a value, and consequently no two live Jobs in any
reachable registry state share an identifier. -/
theorem allocator_monotone :
    jobIdAt 0 = 1 ∧
    (∀ k l : Nat, k < l → jobIdAt k < jobIdAt l) ∧
    (∀ k l : Nat, jobIdAt k = jobIdAt l → k = l) ∧
    (∀ s : ServerState, Reachable s →
      s.jobs.Pairwise (fun a b => a.ID ≠ b.ID)) := by
  refine ⟨by simp [jobIdAt_eq], ?_, ?_, ?_⟩
  · intro k l hkl
    rw [jobIdAt_eq, jobIdAt_eq]
    omega
  · intro k l hkl
    rw [jobIdAt_eq, jobIdAt_eq] at hkl
    omega
  · intro s hs
    exact (reachable_ids s hs).2

/-- Witness for C6: strict growth on concrete indices and distinctness in a
concrete reachable state. -/
theorem allocator_monotone_witness :
    jobIdAt 0 < jobIdAt 2 ∧
    (jobStartClientListener initialState (Except.ok ()) ("") 9000).state.jobs.Pairwise
      (fun a b => a.ID ≠ b.ID) :=
  ⟨allocator_monotone.2.1 0 2 (by omega),
   allocator_monotone.2.2.2 _
     (Reachable.start initialState (Except.ok ()) ("") 9000 Reachable.init)⟩

/-- Claim C7: StopJob on an identifier absent from the registry reports
not-found and leaves the state unchanged with no signal sent; StopJob on a
present identifier succeeds and sends on the stop channel of that Job
exactly once. -/
theorem stopJob_spec (s : ServerState) (id : Int) :
    ((∀ x ∈ s.jobs, x.ID ≠ id) →
      (StopJob s id).notFound = true ∧ (StopJob s id).state = s ∧
        (StopJob s id).signals = []) ∧
    (∀ j : Job, s.jobs.find? (fun x => x.ID == id) = some j →
      (StopJob s id).notFound = false ∧ (StopJob s id).state = s ∧
        (StopJob s id).signals = [j.JobCtrl]) := by
  constructor
  · intro h
    have hf : s.jobs.find? (fun x => x.ID == id) = none := by
      rw [List.find?_eq_none]
      intro x hx
      simpa using h x hx
    simp [StopJob, hf]
  · intro j hj
    simp [StopJob, hj]

/-- Witness for C7 on a concrete one-job registry: identifier 5 is absent
and reported not-found, identifier 1 is present and its channel signalled. -/
theorem stopJob_spec_witness :
    (StopJob demoState 5).notFound = true ∧
    (StopJob demoState 1).signals = [demoJob.JobCtrl] :=
  ⟨((stopJob_spec demoState 5).1 (by decide)).1,
   ((stopJob_spec demoState 1).2 demoJob (by decide)).2.2⟩

/-- Claim C8: a failed bind returns the sentinel -1 alongside the error,
and -1 lies outside the identifier space: every identifier the allocator
ever hands out is at least 1, and every successful start returns an
identifier at least 1, so the sentinel is distinguishable from every
successfully allocated identifier. -/
theorem failSentinel (s : ServerState) (e : String) (bindIface : String) (port : Nat) :
    (jobStartClientListener s (Except.error e) bindIface port).retId = -1 ∧
    (∀ k : Nat, 1 ≤ jobIdAt k) ∧
    (∀ k : Nat, (jobStartClientListener s (Except.error e) bindIface port).retId ≠ jobIdAt k) ∧
    (∀ s2 : ServerState, ∀ bi2 : String, ∀ p2 : Nat,
      1 ≤ (jobStartClientListener s2 (Except.ok ()) bi2 p2).retId) := by
  refine ⟨rfl, ?_, ?_, ?_⟩
  · intro k
    rw [jobIdAt_eq]
    omega
  · intro k
    rw [jobIdAt_eq]
    simp only [jobStartClientListener]
    omega
  · intro s2 bi2 p2
    simp only [jobStartClientListener, GetJobID]
    omega

/-- Claim C9: startMultiplayerModeCmd truncates the lport flag to 16 bits:
the Job registered by the command stores the flag value modulo two to the
sixteenth as its port, the same port is handed to the bind of the
listener, and in particular a flag value of 65536 binds port 0. -/
theorem lport_truncation (s : ServerState) (server : String) (v : Int) :
    ∃ job : Job,
      (startMultiplayerModeCmd s (Except.ok ()) server v).state.jobs = job :: s.jobs ∧
      (job.Port : Int) = v % 65536 ∧
      Action.bindListener server job.Port ∈
        (startMultiplayerModeCmd s (Except.ok ()) server v).mainTrace ∧
      uint16OfInt 65536 = 0 := by
  refine ⟨{ ID := (s.nextJobId : Int) + 1, Name := "rpc",
            Description := "client listener", Protocol := "tcp",
            Port := uint16OfInt v, JobCtrl := s.nextChanId }, rfl, ?_, ?_, by decide⟩
  · simp only [uint16OfInt]
    exact Int.toNat_of_nonneg (Int.emod_nonneg v (by norm_num))
  · simp [startMultiplayerModeCmd, jobStartClientListener]

/-- Every lookup in defaultHostProc yields the Windows path, the macOS
path, or nothing: the declared Linux path is not a value of the map. -/
theorem lookup_defaultHostProc (os : String) :
    List.lookup os defaultHostProc = some windowsDefaultHostProc ∨
    List.lookup os defaultHostProc = some macosDefaultHostProc ∨
    List.lookup os defaultHostProc = none := by
  cases h1 : os == ("windows") with
  | true => exact Or.inl (by simp [defaultHostProc, List.lookup, h1])
  | false =>
    cases h2 : os == ("linux") with
    | true => exact Or.inl (by simp [defaultHostProc, List.lookup, h1, h2])
    | false =>
      cases h3 : os == ("darwin") with
      | true => exact Or.inr (Or.inl (by simp [defaultHostProc, List.lookup, h1, h2, h3]))
      | false => exact Or.inr (Or.inr (by simp [defaultHostProc, List.lookup, h1, h2, h3]))

/-- Claim C10: getDefaultProcess returns the Windows notepad path for the
linux target with no error, and the declared linuxDefaultHostProc value
is never returned for any target. -/
theorem defaultProcess_linux :
    getDefaultProcess ("linux") = Except.ok ("c:\\windows\\system32\\notepad.exe") ∧
    (∀ os : String, getDefaultProcess os ≠ Except.ok linuxDefaultHostProc) := by
  constructor
  · rfl
  · intro os h
    have hd : getDefaultProcess os =
        (match List.lookup os defaultHostProc with
          | some p => Except.ok p
          | none =>
              Except.error
                (("no default process for ") ++ os ++ (" target, please specify one"))) := rfl
    rcases lookup_defaultHostProc os with hl | hl | hl
    · rw [hd, hl] at h
      exact absurd (Except.ok.inj h) (by decide)
    · rw [hd, hl] at h
      exact absurd (Except.ok.inj h) (by decide)
    · rw [hd, hl] at h
      exact Except.noConfusion h

/-- Witness for C10 at the linux target. -/
theorem defaultProcess_linux_witness :
    getDefaultProcess ("linux") ≠ Except.ok linuxDefaultHostProc :=
  defaultProcess_linux.2 ("linux")

end Sliver
